import Mathlib

/-
Verification of the core shop logic of the e-commerce backend
(shop/models.py): stock adjustment, StockMovement persistence effects,
cart checkout, order cancellation, and review aggregation/moderation.

Modelling conventions:
* Django model rows become Lean structures.  Fields irrelevant to the
  verified properties (image fields, slugs, timestamps, thresholds) are
  omitted; auto-updated timestamps (`last_stock_update`, `updated`) carry
  no information for the properties below and are not modelled.
* `Product.stock` is declared `PositiveIntegerField` in the source, but
  the Python methods compute on ordinary ints before saving, so stock is
  embedded as `ℤ` in order to express exactly what the arithmetic does.
* `DecimalField` money values are embedded as `ℚ` (Python `Decimal`
  arithmetic on these operations is exact).
* The product table is a total map `ℕ → Product` (foreign keys always
  resolve).  Each mutation threads an updated map, matching the
  sequential read-fetch/modify/save behaviour of the Python code.
-/

namespace Shop

structure Product where
  name : String
  price : ℚ
  stock : ℤ
  available : Bool
  average_rating : ℚ
  total_reviews : ℕ
deriving DecidableEq, Repr

abbrev ProductStore := ℕ → Product

/-- Embedding of `Product.adjust_stock` (models.py lines 102-121).
Returns the updated product together with the Python return value. -/
def Product.adjust_stock (p : Product) (quantity : ℕ) (operation : String) :
    Product × Bool :=
  if operation = "remove" then
    if (quantity : ℤ) ≤ p.stock then
      ({ p with stock := p.stock - (quantity : ℤ) }, true)
    else
      (p, false)
  else if operation = "add" then
    ({ p with stock := p.stock + (quantity : ℤ) }, true)
  else
    (p, false)

/-- Embedding of the `StockMovement` row (models.py lines 535-558):
only the fields read by `save` are kept. -/
structure StockMovement where
  quantity : ℤ
  type : String
deriving DecidableEq, Repr

/-- Embedding of the effect of `StockMovement.save` on its product
(models.py lines 569-581). -/
def StockMovement.saveEffect (m : StockMovement) (p : Product) : Product :=
  if m.type = "in" then { p with stock := p.stock + m.quantity }
  else if m.type = "out" then { p with stock := p.stock - (m.quantity.natAbs : ℤ) }
  else if m.type = "adjustment" then { p with stock := p.stock + m.quantity }
  else p

/-- A sample product used in concrete evaluations. -/
def sampleProduct : Product :=
  { name := "Widget", price := 50, stock := 5, available := true,
    average_rating := 0, total_reviews := 0 }

/-- Branch lemma: `adjust_stock` with operation `"remove"`. -/
lemma adjust_stock_remove (p : Product) (q : ℕ) :
    p.adjust_stock q "remove" =
      if (q : ℤ) ≤ p.stock then ({ p with stock := p.stock - (q : ℤ) }, true)
      else (p, false) := by
  unfold Product.adjust_stock
  rw [if_pos rfl]

/-- Branch lemma: `adjust_stock` with operation `"add"` always succeeds. -/
lemma adjust_stock_add (p : Product) (q : ℕ) :
    p.adjust_stock q "add" = ({ p with stock := p.stock + (q : ℤ) }, true) := by
  unfold Product.adjust_stock
  rw [if_neg (by decide), if_pos rfl]

/-- Frame lemma: `adjust_stock` never changes the price, name or
availability. -/
lemma adjust_stock_frame (p : Product) (q : ℕ) (op : String) :
    ((p.adjust_stock q op).1.price = p.price ∧
     (p.adjust_stock q op).1.name = p.name ∧
     (p.adjust_stock q op).1.available = p.available) := by
  unfold Product.adjust_stock
  split_ifs <;> exact ⟨rfl, rfl, rfl⟩

/-- Sanity lemma: `adjust_stock` alone preserves non-negativity of stock (the guard on
the remove branch); this isolates the C1 bug to `StockMovement.save`. -/
lemma adjust_stock_nonneg (p : Product) (q : ℕ) (op : String)
    (h : 0 ≤ p.stock) : 0 ≤ (p.adjust_stock q op).1.stock := by
  unfold Product.adjust_stock
  split_ifs with h1 h2 h3
  · simpa using h2
  · exact h
  · have : (0 : ℤ) ≤ (q : ℤ) := Int.ofNat_nonneg q
    simp only []
    omega
  · exact h

/-- Claim C1 (code bug witness): persisting a `StockMovement` of type
`"out"` for 10 units against a product holding 5 units drives the
product's stock to -5, violating the invariant `stock ≥ 0` that the
source itself declares via `PositiveIntegerField`. -/
theorem C1_stockmovement_negative :
    (StockMovement.saveEffect { quantity := 10, type := "out" } sampleProduct).stock = -5 ∧
    (StockMovement.saveEffect { quantity := 10, type := "out" } sampleProduct).stock < 0 := by
  constructor <;> decide

/-- Claim C5: `adjust_stock(quantity, "remove")` decrements stock by
`quantity` and returns `True` exactly when `stock ≥ quantity`; when
`stock < quantity` it returns `False` and leaves the product (all
fields) unchanged. -/
theorem C5_adjust_stock_remove (p : Product) (q : ℕ) :
    (((q : ℤ) ≤ p.stock →
        p.adjust_stock q "remove" = ({ p with stock := p.stock - (q : ℤ) }, true)) ∧
     (p.stock < (q : ℤ) → p.adjust_stock q "remove" = (p, false)) ∧
     ((p.adjust_stock q "remove").2 = true ↔ (q : ℤ) ≤ p.stock)) := by
  rw [adjust_stock_remove]
  by_cases h : (q : ℤ) ≤ p.stock
  · rw [if_pos h]
    exact ⟨fun _ => rfl, fun hlt => absurd h (not_le.mpr hlt), by simp [h]⟩
  · rw [if_neg h]
    exact ⟨fun hle => absurd hle h, fun _ => rfl, by simp [h]⟩

/-- Witness for C5 at a concrete input: removing 3 from stock 5
succeeds and leaves stock 2. -/
theorem C5_witness :
    sampleProduct.adjust_stock 3 "remove" =
      ({ sampleProduct with stock := 2 }, true) :=
  (C5_adjust_stock_remove sampleProduct 3).1 (by decide)

/-- Embedding of a `CartItem` row (models.py lines 236-259).  Within a
cart, product ids are unique (`unique_together = ("cart", "product")`). -/
structure CartItem where
  productId : ℕ
  quantity : ℕ
deriving DecidableEq, Repr

/-- Embedding of a `Cart` row (models.py lines 175-234). -/
structure Cart where
  status : String
  items : List CartItem
deriving DecidableEq, Repr

/-- Embedding of an `OrderItem` row (models.py lines 306-316): `price`
is the snapshot taken at order-creation time. -/
structure OrderItem where
  productId : ℕ
  quantity : ℕ
  price : ℚ
deriving DecidableEq, Repr

/-- Embedding of an `Order` row (models.py lines 261-304), carrying its
owned `OrderItem` rows. -/
structure Order where
  status : String
  total_amount : ℚ
  items : List OrderItem
deriving DecidableEq, Repr

/-- Embedding of `OrderItem.subtotal` (models.py lines 312-313): price at purchase
time times quantity; reads only the snapshot stored on the row. -/
def OrderItem.subtotal (oi : OrderItem) : ℚ := oi.price * (oi.quantity : ℚ)

/-- Embedding of `CartItem.subtotal` (models.py lines 244-245): current product price
times quantity. -/
def CartItem.subtotal (item : CartItem) (store : ProductStore) : ℚ :=
  (store item.productId).price * (item.quantity : ℚ)

/-- Embedding of `Cart.total_price` (models.py lines 192-193). -/
def Cart.total_price (cart : Cart) (store : ProductStore) : ℚ :=
  (cart.items.map (fun item => item.subtotal store)).sum

/-- The per-line condition checked by the validation loop of
`Cart.checkout` (models.py lines 204-208). -/
def itemValid (store : ProductStore) (item : CartItem) : Prop :=
  (store item.productId).available = true ∧
  (item.quantity : ℤ) ≤ (store item.productId).stock

instance (store : ProductStore) (item : CartItem) : Decidable (itemValid store item) :=
  inferInstanceAs (Decidable (_ ∧ _))

/-- The validation loop of `Cart.checkout` (models.py lines 204-208):
returns the first failure message, or `none` when every line passes. -/
def checkoutValidate : List CartItem → ProductStore → Option String
  | [], _ => none
  | item :: rest, store =>
    if ¬ (store item.productId).available = true then
      some ("Product " ++ (store item.productId).name ++ " is not available")
    else if (store item.productId).stock < (item.quantity : ℤ) then
      some ("Insufficient stock for " ++ (store item.productId).name)
    else checkoutValidate rest store

/-- One iteration of the stock debit inside the checkout loop
(models.py line 225): replace the row of `item`'s product by the result
of `adjust_stock(quantity, "remove")`. -/
def debitStore (store : ProductStore) (item : CartItem) : ProductStore :=
  fun id =>
    if id = item.productId then
      ((store item.productId).adjust_stock item.quantity "remove").1
    else store id

/-- The order-item creation loop of `Cart.checkout` (models.py lines
217-225): for each line, snapshot the product's current price into an
`OrderItem` and debit stock via `adjust_stock(quantity, "remove")`,
threading the product table. -/
def processItems : List CartItem → ProductStore → List OrderItem × ProductStore
  | [], store => ([], store)
  | item :: rest, store =>
    ({ productId := item.productId, quantity := item.quantity,
       price := (store item.productId).price } ::
        (processItems rest (debitStore store item)).1,
     (processItems rest (debitStore store item)).2)

/-- Python's `Cart.checkout` returns `(False, message)` or
`(True, order)`. -/
inductive CheckoutRet where
  | err (message : String)
  | ok (order : Order)
deriving DecidableEq, Repr

/-- Embedding of `Cart.checkout` (models.py lines 198-231): validate all
lines; on failure return the message with no state change; on success
create the `Order` with `total_amount = total_price()` (computed before
any stock debit), create the `OrderItem` snapshots while debiting stock,
and mark the cart `checked_out`.  The cart's items are NOT deleted by
this method.  Result: (return value, cart after, product table after). -/
def Cart.checkout (cart : Cart) (store : ProductStore) :
    CheckoutRet × Cart × ProductStore :=
  match checkoutValidate cart.items store with
  | some msg => (CheckoutRet.err msg, cart, store)
  | none =>
    (CheckoutRet.ok
       { status := "pending",
         total_amount := cart.total_price store,
         items := (processItems cart.items store).1 },
     { cart with status := "checked_out" },
     (processItems cart.items store).2)

/-- Completeness of the validation loop: `checkoutValidate` returns `none` exactly when every line passes the
availability and stock checks. -/
lemma checkoutValidate_eq_none (items : List CartItem) (store : ProductStore) :
    checkoutValidate items store = none ↔ ∀ item ∈ items, itemValid store item := by
  induction items with
  | nil => simp [checkoutValidate]
  | cons item rest ih =>
    by_cases h1 : (store item.productId).available = true
    · by_cases h2 : (store item.productId).stock < (item.quantity : ℤ)
      · simp only [checkoutValidate, if_neg (not_not_intro h1), if_pos h2]
        constructor
        · intro hcontra
          exact absurd hcontra (by simp)
        · intro hall
          have := (hall item (by simp)).2
          omega
      · simp only [checkoutValidate, if_neg (not_not_intro h1), if_neg h2]
        rw [ih]
        constructor
        · intro hall x hx
          rcases List.mem_cons.mp hx with hx0 | hx1
          · subst hx0
            exact ⟨h1, by omega⟩
          · exact hall x hx1
        · intro hall x hx
          exact hall x (List.mem_cons_of_mem _ hx)
    · simp only [checkoutValidate, if_pos h1]
      constructor
      · intro hcontra
        exact absurd hcontra (by simp)
      · intro hall
        exact absurd (hall item (by simp)).1 h1

/-- When `checkoutValidate` fails, the returned message names an
offending cart line's product. -/
lemma checkoutValidate_eq_some (items : List CartItem) (store : ProductStore)
    (msg : String) (h : checkoutValidate items store = some msg) :
    ∃ item ∈ items, ¬ itemValid store item ∧
      (msg = "Product " ++ (store item.productId).name ++ " is not available" ∨
       msg = "Insufficient stock for " ++ (store item.productId).name) := by
  induction items with
  | nil => simp [checkoutValidate] at h
  | cons item rest ih =>
    by_cases h1 : (store item.productId).available = true
    · by_cases h2 : (store item.productId).stock < (item.quantity : ℤ)
      · rw [checkoutValidate, if_neg (not_not_intro h1), if_pos h2] at h
        refine ⟨item, by simp, fun hv => ?_, Or.inr (Option.some_injective _ h).symm⟩
        have := hv.2
        omega
      · rw [checkoutValidate, if_neg (not_not_intro h1), if_neg h2] at h
        obtain ⟨x, hx, hrest⟩ := ih h
        exact ⟨x, List.mem_cons_of_mem _ hx, hrest⟩
    · rw [checkoutValidate, if_pos h1] at h
      exact ⟨item, by simp, fun hv => absurd hv.1 h1,
             Or.inl (Option.some_injective _ h).symm⟩

/-- Claim C2: checkout succeeds iff every cart line's product is
available and its quantity is at most the product's stock; on failure
the message names an offending product and both the cart (items and
status) and the whole product table (hence every stock level) are
unchanged. -/
theorem C2_checkout_guard (cart : Cart) (store : ProductStore) :
    ((∃ o, (cart.checkout store).1 = CheckoutRet.ok o) ↔
       ∀ item ∈ cart.items, itemValid store item) ∧
    (∀ msg, (cart.checkout store).1 = CheckoutRet.err msg →
       ((cart.checkout store).2.1 = cart ∧
        (cart.checkout store).2.2 = store ∧
        ∃ item ∈ cart.items, ¬ itemValid store item ∧
          (msg = "Product " ++ (store item.productId).name ++ " is not available" ∨
           msg = "Insufficient stock for " ++ (store item.productId).name))) := by
  rcases hv : checkoutValidate cart.items store with _ | msg0
  · constructor
    · rw [← checkoutValidate_eq_none cart.items store]
      simp [Cart.checkout, hv]
    · intro msg hmsg
      simp [Cart.checkout, hv] at hmsg
  · constructor
    · constructor
      · intro ⟨o, ho⟩
        simp [Cart.checkout, hv] at ho
      · intro hall
        rw [← checkoutValidate_eq_none cart.items store] at hall
        rw [hall] at hv
        exact absurd hv (by simp)
    · intro msg hmsg
      have hm : msg0 = msg := by
        simpa [Cart.checkout, hv] using hmsg
      subst hm
      refine ⟨?_, ?_, checkoutValidate_eq_some cart.items store msg0 hv⟩
      · simp [Cart.checkout, hv]
      · simp [Cart.checkout, hv]

/-- A store whose products hold too little stock for `threeCart`. -/
def lowStore : ProductStore := fun _ =>
  { name := "Widget", price := 50, stock := 2, available := true,
    average_rating := 0, total_reviews := 0 }

/-- A store matching the spec's concrete scenario: stock 10, price
50.00. -/
def fullStore : ProductStore := fun _ =>
  { name := "Widget", price := 50, stock := 10, available := true,
    average_rating := 0, total_reviews := 0 }

/-- An active cart holding 3 units of product 0. -/
def threeCart : Cart :=
  { status := "active", items := [{ productId := 0, quantity := 3 }] }

/-- Witness for C2 at a concrete input: a cart asking for 3 units
against stock 2 fails with the insufficient-stock message and leaves
cart and store unchanged. -/
theorem C2_witness :
    (threeCart.checkout lowStore).2.1 = threeCart ∧
    (threeCart.checkout lowStore).2.2 = lowStore ∧
    ∃ item ∈ threeCart.items, ¬ itemValid lowStore item ∧
      ("Insufficient stock for Widget" =
         "Product " ++ (lowStore item.productId).name ++ " is not available" ∨
       "Insufficient stock for Widget" =
         "Insufficient stock for " ++ (lowStore item.productId).name) :=
  (C2_checkout_guard threeCart lowStore).2 "Insufficient stock for Widget" (by decide)

/-- A single checkout debit keeps every product's price. -/
lemma debitStore_price (store : ProductStore) (item : CartItem) (id : ℕ) :
    (debitStore store item id).price = (store id).price := by
  unfold debitStore
  by_cases h : id = item.productId
  · subst h
    simp [(adjust_stock_frame (store item.productId) item.quantity "remove").1]
  · simp [h]

/-- The whole checkout loop keeps every product's price. -/
lemma processItems_store_price (items : List CartItem) (store : ProductStore)
    (id : ℕ) : ((processItems items store).2 id).price = (store id).price := by
  induction items generalizing store with
  | nil => rfl
  | cons item rest ih =>
    show ((processItems rest (debitStore store item)).2 id).price = (store id).price
    rw [ih, debitStore_price]

/-- Every `OrderItem` created by the checkout loop snapshots the price
the product had when checkout started. -/
lemma processItems_price_mem (items : List CartItem) (store : ProductStore) :
    ∀ oi ∈ (processItems items store).1, oi.price = (store oi.productId).price := by
  induction items generalizing store with
  | nil =>
    intro oi h
    simp [processItems] at h
  | cons item rest ih =>
    intro oi h
    have hstep : (processItems (item :: rest) store).1 =
        { productId := item.productId, quantity := item.quantity,
          price := (store item.productId).price } ::
          (processItems rest (debitStore store item)).1 := rfl
    rw [hstep] at h
    rcases List.mem_cons.mp h with h0 | h1
    · subst h0
      rfl
    · rw [ih (debitStore store item) oi h1, debitStore_price]

/-- The sum of the created order items' subtotals equals the cart total
computed against the initial product table. -/
lemma processItems_sum (items : List CartItem) (store : ProductStore) :
    ((processItems items store).1.map OrderItem.subtotal).sum =
      (items.map (fun item => item.subtotal store)).sum := by
  induction items generalizing store with
  | nil => rfl
  | cons item rest ih =>
    have hstep : (processItems (item :: rest) store).1 =
        { productId := item.productId, quantity := item.quantity,
          price := (store item.productId).price } ::
          (processItems rest (debitStore store item)).1 := rfl
    rw [hstep, List.map_cons, List.sum_cons, ih, List.map_cons, List.sum_cons]
    have hs : rest.map (fun it => it.subtotal (debitStore store item)) =
        rest.map (fun it => it.subtotal store) := by
      apply List.map_congr_left
      intro it _
      unfold CartItem.subtotal
      rw [debitStore_price]
    rw [hs]
    rfl

/-- Claim C3: on successful checkout, the created order's
`total_amount` equals the sum of its order items' `subtotal`s, and each
order item's `price` is the product's price at checkout time.  Since
`OrderItem.subtotal` reads only the snapshot stored on the row (source
line 313: `self.price * self.quantity`), the equality is untouched by
any later change to `Product.price`. -/
theorem C3_order_total (cart : Cart) (store : ProductStore) (order : Order)
    (h : (cart.checkout store).1 = CheckoutRet.ok order) :
    order.total_amount = (order.items.map OrderItem.subtotal).sum ∧
    ∀ oi ∈ order.items, oi.price = (store oi.productId).price := by
  rcases hv : checkoutValidate cart.items store with _ | msg
  · have horder : order =
        { status := "pending", total_amount := cart.total_price store,
          items := (processItems cart.items store).1 } := by
      have h2 := h
      simp [Cart.checkout, hv] at h2
      exact h2.symm
    subst horder
    constructor
    · show cart.total_price store = ((processItems cart.items store).1.map OrderItem.subtotal).sum
      rw [processItems_sum]
      rfl
    · exact processItems_price_mem cart.items store
  · exfalso
    simp [Cart.checkout, hv] at h

/-- The order produced by the spec's concrete scenario. -/
def scenarioOrder : Order :=
  { status := "pending", total_amount := 150,
    items := [{ productId := 0, quantity := 3, price := 50 }] }

/-- Evaluation of the concrete scenario checkout: it succeeds and
returns `scenarioOrder`. -/
lemma scenario_checkout_fst :
    (threeCart.checkout fullStore).1 = CheckoutRet.ok scenarioOrder := by
  have hv : checkoutValidate threeCart.items fullStore = none := by decide
  have htotal : threeCart.total_price fullStore = 150 := by
    norm_num [Cart.total_price, CartItem.subtotal, threeCart, fullStore]
  have hitems : (processItems threeCart.items fullStore).1 = scenarioOrder.items := by
    decide
  simp only [Cart.checkout, hv, htotal, hitems]
  rfl

/-- Witness for C3 at a concrete input: the scenario order of the
stock-10 / price-50 checkout satisfies the accounting identity. -/
theorem C3_witness :
    scenarioOrder.total_amount = (scenarioOrder.items.map OrderItem.subtotal).sum ∧
    ∀ oi ∈ scenarioOrder.items, oi.price = (fullStore oi.productId).price :=
  C3_order_total threeCart fullStore scenarioOrder scenario_checkout_fst

/-- Counterexample to claim C8 as stated: in the spec's concrete
scenario, `Cart.checkout` does not delete the cart's items, so the cart
is not left empty. -/
theorem C8_counterexample :
    ¬ ((threeCart.checkout fullStore).2.1.items = []) := by decide

/-- Claim C8 (amended): in the concrete scenario (product stock 10,
price 50.00, cart of 3 units) checkout succeeds, the created order has
`total_amount` 150.00, the product is left with stock 7 and the cart
with status `"checked_out"`; the cart items stay in place, since
`Cart.checkout` never deletes them (only the HTTP view deletes items,
and it does not invoke `Cart.checkout`). -/
theorem C8_scenario :
    (threeCart.checkout fullStore).1 = CheckoutRet.ok scenarioOrder ∧
    scenarioOrder.total_amount = 150 ∧
    ((threeCart.checkout fullStore).2.2 0).stock = 7 ∧
    (threeCart.checkout fullStore).2.1.status = "checked_out" ∧
    (threeCart.checkout fullStore).2.1.items = threeCart.items := by
  exact ⟨scenario_checkout_fst, rfl, by decide, rfl, rfl⟩

/-- Embedding of `Order.can_cancel` (models.py lines 285-288):
`status in ["pending", "processing"]`. -/
def Order.can_cancel (o : Order) : Prop :=
  o.status = "pending" ∨ o.status = "processing"

instance (o : Order) : Decidable o.can_cancel :=
  inferInstanceAs (Decidable (_ ∨ _))

/-- One iteration of the stock restore inside the cancellation loop
(models.py line 297): replace the row of the item's product by the
result of `adjust_stock(quantity, "add")`. -/
def creditStore (store : ProductStore) (oi : OrderItem) : ProductStore :=
  fun pid =>
    if pid = oi.productId then
      ((store oi.productId).adjust_stock oi.quantity "add").1
    else store pid

/-- The stock-restoring loop of `Order.cancel_order` (models.py lines
296-297): credit each order item's quantity back via
`adjust_stock(quantity, "add")`, threading the product table. -/
def restoreItems : List OrderItem → ProductStore → ProductStore
  | [], store => store
  | oi :: rest, store => restoreItems rest (creditStore store oi)

/-- Embedding of `Order.cancel_order` (models.py lines 290-301): reject
with no state change unless `can_cancel`; otherwise restore stock for
every item and set the status to `"cancelled"`.  Result: (Python return
pair, order after, product table after). -/
def Order.cancel_order (o : Order) (store : ProductStore) :
    (Bool × String) × Order × ProductStore :=
  if ¬ o.can_cancel then ((false, "Order cannot be cancelled"), o, store)
  else ((true, "Order cancelled successfully"),
        { o with status := "cancelled" }, restoreItems o.items store)

/-- Total quantity that the items of a list direct at a given product. -/
def qtyTowards (pid : ℕ) (ois : List OrderItem) : ℕ :=
  ((ois.filter (fun oi => oi.productId == pid)).map (fun oi => oi.quantity)).sum

/-- The restore loop adds, to each product's stock, the total quantity
of the order items that reference it. -/
lemma restoreItems_stock (ois : List OrderItem) (store : ProductStore) (pid : ℕ) :
    (restoreItems ois store pid).stock = (store pid).stock + (qtyTowards pid ois : ℤ) := by
  induction ois generalizing store with
  | nil => simp [restoreItems, qtyTowards]
  | cons oi rest ih =>
    show (restoreItems rest (creditStore store oi) pid).stock = _
    rw [ih]
    by_cases h : pid = oi.productId
    · have hcs : (creditStore store oi pid).stock =
          (store pid).stock + (oi.quantity : ℤ) := by
        simp [creditStore, h, adjust_stock_add]
      have hq : qtyTowards pid (oi :: rest) = oi.quantity + qtyTowards pid rest := by
        simp [qtyTowards, List.filter_cons, h]
      rw [hcs, hq]
      push_cast
      ring
    · have hcs : (creditStore store oi pid).stock = (store pid).stock := by
        simp [creditStore, h]
      have hne : (oi.productId == pid) = false := by
        simp only [beq_eq_false_iff_ne, ne_eq]
        exact fun hc => h hc.symm
      have hq : qtyTowards pid (oi :: rest) = qtyTowards pid rest := by
        simp [qtyTowards, List.filter_cons, hne]
      rw [hcs, hq]

/-- When no item of the list references `pid`, nothing is credited. -/
lemma qtyTowards_eq_zero (pid : ℕ) (ois : List OrderItem)
    (h : ∀ oi ∈ ois, oi.productId ≠ pid) : qtyTowards pid ois = 0 := by
  unfold qtyTowards
  rw [List.filter_eq_nil_iff.mpr (by intro oi hmem; simpa using h oi hmem)]
  rfl

/-- With pairwise-distinct product ids (as checkout produces, since a
cart holds each product at most once), the credit for an item's product
is exactly that item's quantity. -/
lemma qtyTowards_of_nodup (ois : List OrderItem) (oi : OrderItem)
    (hmem : oi ∈ ois) (hnd : (ois.map (fun x => x.productId)).Nodup) :
    qtyTowards oi.productId ois = oi.quantity := by
  induction ois with
  | nil => simp at hmem
  | cons x rest ih =>
    rw [List.map_cons, List.nodup_cons] at hnd
    rcases List.mem_cons.mp hmem with h0 | h1
    · subst h0
      have hq : qtyTowards oi.productId (oi :: rest) =
          oi.quantity + qtyTowards oi.productId rest := by
        simp [qtyTowards, List.filter_cons]
      have hz : qtyTowards oi.productId rest = 0 := by
        apply qtyTowards_eq_zero
        intro y hy hcontra
        exact hnd.1 (hcontra ▸ List.mem_map_of_mem (fun z => z.productId) hy)
      rw [hq, hz]
      exact Nat.add_zero _
    · have hx : (x.productId == oi.productId) = false := by
        simp only [beq_eq_false_iff_ne, ne_eq]
        intro hcontra
        exact hnd.1 (hcontra ▸ List.mem_map_of_mem (fun z => z.productId) h1)
      have hq : qtyTowards oi.productId (x :: rest) = qtyTowards oi.productId rest := by
        simp [qtyTowards, List.filter_cons, hx]
      rw [hq]
      exact ih h1 hnd.2

/-- Claim C4: cancellation of a delivered, shipped or already-cancelled
order is rejected with no state change; cancellation of a pending or
processing order returns success, sets the status to `"cancelled"`, and
credits each product's stock with exactly the quantity recorded on the
corresponding order item (stated for orders whose items carry distinct
product ids, as every checkout-created order does). -/
theorem C4_cancel_order (o : Order) (store : ProductStore) :
    ((o.status = "delivered" ∨ o.status = "shipped" ∨ o.status = "cancelled") →
       o.cancel_order store = ((false, "Order cannot be cancelled"), o, store)) ∧
    ((o.status = "pending" ∨ o.status = "processing") →
       ((o.cancel_order store).1 = (true, "Order cancelled successfully") ∧
        (o.cancel_order store).2.1 = { o with status := "cancelled" } ∧
        ((o.items.map (fun x => x.productId)).Nodup →
          ∀ oi ∈ o.items,
            ((o.cancel_order store).2.2 oi.productId).stock =
              (store oi.productId).stock + (oi.quantity : ℤ)))) := by
  constructor
  · intro h
    have hnc : ¬ o.can_cancel := by
      unfold Order.can_cancel
      rcases h with h | h | h <;> rw [h] <;> decide
    unfold Order.cancel_order
    rw [if_pos hnc]
  · intro h
    have hc : o.can_cancel := h
    unfold Order.cancel_order
    rw [if_neg (not_not_intro hc)]
    refine ⟨rfl, rfl, fun hnd oi hmem => ?_⟩
    rw [restoreItems_stock, qtyTowards_of_nodup o.items oi hmem hnd]

/-- A pending order for 3 units of product 0, as checkout creates it. -/
def pendingOrder : Order :=
  { status := "pending", total_amount := 150,
    items := [{ productId := 0, quantity := 3, price := 50 }] }

/-- Witness for C4 at a concrete input: cancelling the pending
three-unit order against the stock-7 table returns success and restores
product 0 to stock 10. -/
theorem C4_witness :
    (pendingOrder.cancel_order (fun _ => { sampleProduct with stock := 7 })).1 =
      (true, "Order cancelled successfully") ∧
    ((pendingOrder.cancel_order (fun _ => { sampleProduct with stock := 7 })).2.2 0).stock
      = 7 + (3 : ℤ) := by
  have h := (C4_cancel_order pendingOrder
    (fun _ => { sampleProduct with stock := 7 })).2 (Or.inl rfl)
  exact ⟨h.1, h.2.2 (by decide) { productId := 0, quantity := 3, price := 50 } (by decide)⟩

/-- The fields of `self.order_item` and its parent order that
`Review.save` consults (models.py lines 375-381): the foreign-key chain
`order_item.order` is flattened to the three values read. -/
structure OrderItemRef where
  orderUserId : ℕ
  orderStatus : String
  productId : ℕ
deriving DecidableEq, Repr

/-- Embedding of a `Review` row (models.py lines 318-371), keeping the
fields the verified behaviour reads or writes. -/
structure Review where
  productId : ℕ
  userId : ℕ
  rating : ℕ
  is_verified_purchase : Bool
  order_item : Option OrderItemRef
  helpful_votes : ℕ
  reported_count : ℕ
  is_visible : Bool
  moderation_notes : String
deriving DecidableEq, Repr

/-- Round-half-to-even on rationals, the tie behaviour of Python's
built-in `round`. -/
def pythonRound (q : ℚ) : ℤ :=
  if q - (q.floor : ℚ) < 1 / 2 then q.floor
  else if 1 / 2 < q - (q.floor : ℚ) then q.floor + 1
  else if q.floor % 2 = 0 then q.floor else q.floor + 1

/-- Python's `round(x, 2)`: round to 2 decimal places. -/
def roundTo2 (q : ℚ) : ℚ := (pythonRound (q * 100) : ℚ) / 100

/-- Embedding of `product.reviews.filter(is_visible=True)` restricted to one product
(models.py line 390). -/
def visibleReviews (pid : ℕ) (reviews : List Review) : List Review :=
  reviews.filter (fun rv => rv.productId == pid && rv.is_visible)

/-- Embedding of `Review.update_product_rating` (models.py lines
387-397): when the product has at least one visible review, set
`average_rating` to the rounded mean of their ratings and
`total_reviews` to their count; otherwise leave the product untouched.
`reviews` is the whole persisted review table for this product. -/
def update_product_rating (p : Product) (pid : ℕ) (reviews : List Review) : Product :=
  if visibleReviews pid reviews = [] then p
  else
    { p with
        average_rating :=
          roundTo2 (((visibleReviews pid reviews).map (fun rv => (rv.rating : ℚ))).sum /
            ((visibleReviews pid reviews).length : ℚ)),
        total_reviews := (visibleReviews pid reviews).length }

/-- The verified-purchase check at the start of `Review.save`
(models.py lines 375-381). -/
def Review.saveVerify (r : Review) : Review :=
  match r.order_item with
  | some oi =>
    if r.is_verified_purchase = false ∧ oi.orderUserId = r.userId ∧
        oi.orderStatus = "delivered" ∧ oi.productId = r.productId then
      { r with is_verified_purchase := true }
    else r
  | none => r

/-- Embedding of `Review.save` (models.py lines 373-385): run the
verified-purchase check, persist, then recompute the owning product's
rating over the review table after the save.  `others` is the rest of
the persisted review table (this review excluded).  Result: (review as
persisted, product after the rating update). -/
def Review.save (r : Review) (p : Product) (others : List Review) : Review × Product :=
  ((Review.saveVerify r),
   update_product_rating p (Review.saveVerify r).productId (Review.saveVerify r :: others))

/-- The visible reviews of the review's product as they stand right
after `Review.save` persists it. -/
def savedVisible (r : Review) (others : List Review) : List Review :=
  visibleReviews (Review.saveVerify r).productId (Review.saveVerify r :: others)

/-- The field updates of `Review.report` before it calls `save`
(models.py lines 399-406). -/
def Review.reportFields (r : Review) : Review :=
  if 5 ≤ r.reported_count + 1 then
    { r with reported_count := r.reported_count + 1, is_visible := false,
             moderation_notes :=
               r.moderation_notes ++ "\nAuto-hidden due to multiple reports." }
  else { r with reported_count := r.reported_count + 1 }

/-- Embedding of `Review.report` (models.py lines 399-406): increment
`reported_count`, auto-hide at 5 reports, then `self.save()`. -/
def Review.report (r : Review) (p : Product) (others : List Review) :
    Review × Product :=
  Review.save (Review.reportFields r) p others

/-- The verified-purchase check touches only `is_verified_purchase`. -/
lemma saveVerify_frame (r : Review) :
    ((Review.saveVerify r).productId = r.productId ∧
     (Review.saveVerify r).rating = r.rating ∧
     (Review.saveVerify r).reported_count = r.reported_count ∧
     (Review.saveVerify r).is_visible = r.is_visible ∧
     (Review.saveVerify r).moderation_notes = r.moderation_notes) := by
  cases h : r.order_item with
  | none => simp [Review.saveVerify, h]
  | some oi =>
    simp only [Review.saveVerify, h]
    split_ifs <;> exact ⟨rfl, rfl, rfl, rfl, rfl⟩

/-- When at least one visible review exists, the rating update writes
the rounded mean and the visible count. -/
lemma update_product_rating_of_ne_nil (p : Product) (pid : ℕ) (reviews : List Review)
    (h : visibleReviews pid reviews ≠ []) :
    update_product_rating p pid reviews =
      { p with
          average_rating :=
            roundTo2 (((visibleReviews pid reviews).map (fun rv => (rv.rating : ℚ))).sum /
              ((visibleReviews pid reviews).length : ℚ)),
          total_reviews := (visibleReviews pid reviews).length } := by
  unfold update_product_rating
  rw [if_neg h]

/-- Claim C6 (amended): after a review save, provided the product still
has at least one visible review, the product's `average_rating` is the
mean of the visible reviews' ratings rounded to 2 decimal places and
`total_reviews` is the count of visible reviews; a review that is not
visible (for example one auto-hidden at 5 reports) is excluded from the
computation. -/
theorem C6_rating_after_save (r : Review) (p : Product) (others : List Review)
    (h : savedVisible r others ≠ []) :
    (Review.save r p others).2.average_rating =
      roundTo2 (((savedVisible r others).map (fun rv => (rv.rating : ℚ))).sum /
        ((savedVisible r others).length : ℚ)) ∧
    (Review.save r p others).2.total_reviews = (savedVisible r others).length ∧
    ∀ hidden : Review, hidden.is_visible = false →
      (Review.save r p (hidden :: others)).2 = (Review.save r p others).2 := by
  refine ⟨?_, ?_, ?_⟩
  · show (update_product_rating p (Review.saveVerify r).productId
      (Review.saveVerify r :: others)).average_rating = _
    rw [update_product_rating_of_ne_nil _ _ _ h]
    rfl
  · show (update_product_rating p (Review.saveVerify r).productId
      (Review.saveVerify r :: others)).total_reviews = _
    rw [update_product_rating_of_ne_nil _ _ _ h]
    rfl
  · intro hidden hh
    show update_product_rating p (Review.saveVerify r).productId
        (Review.saveVerify r :: hidden :: others) =
      update_product_rating p (Review.saveVerify r).productId
        (Review.saveVerify r :: others)
    have hvis : visibleReviews (Review.saveVerify r).productId
        (Review.saveVerify r :: hidden :: others) =
        visibleReviews (Review.saveVerify r).productId (Review.saveVerify r :: others) := by
      simp [visibleReviews, List.filter_cons, hh]
    unfold update_product_rating
    rw [hvis]

/-- A visible four-star review of product 0. -/
def visRev : Review :=
  { productId := 0, userId := 1, rating := 4, is_verified_purchase := false,
    order_item := none, helpful_votes := 0, reported_count := 0,
    is_visible := true, moderation_notes := "" }

/-- Witness for C6 at a concrete input: saving one visible four-star
review yields an average of 4 and a count of 1 over the singleton
visible set. -/
theorem C6_witness :
    (Review.save visRev sampleProduct []).2.average_rating =
      roundTo2 (((savedVisible visRev []).map (fun rv => (rv.rating : ℚ))).sum /
        ((savedVisible visRev []).length : ℚ)) ∧
    (Review.save visRev sampleProduct []).2.total_reviews =
      (savedVisible visRev []).length ∧
    ∀ hidden : Review, hidden.is_visible = false →
      (Review.save visRev sampleProduct (hidden :: [])).2 =
        (Review.save visRev sampleProduct []).2 :=
  C6_rating_after_save visRev sampleProduct [] (by decide)

/-- A review of product 0 that has already been hidden. -/
def hiddenRev : Review :=
  { productId := 0, userId := 1, rating := 4, is_verified_purchase := false,
    order_item := none, helpful_votes := 0, reported_count := 5,
    is_visible := false, moderation_notes := "" }

/-- A product whose stored aggregate reflects one earlier visible
review. -/
def ratedProduct : Product :=
  { name := "Widget", price := 50, stock := 5, available := true,
    average_rating := 4, total_reviews := 1 }

/-- Counterexample to claim C6 as stated: saving a hidden review when
no visible review remains leaves `total_reviews` at its stale previous
value 1, not at the visible count 0. -/
theorem C6_counterexample :
    (Review.save hiddenRev ratedProduct []).2.total_reviews ≠
      (savedVisible hiddenRev []).length := by decide

/-- Claim C7: saving a review that references an order item whose
parent order is delivered, belongs to the reviewer and matches the
reviewed product sets `is_verified_purchase`; and a review already
verified stays verified through any save. -/
theorem C7_verified_purchase (r : Review) (p : Product) (others : List Review) :
    (∀ oi : OrderItemRef, r.order_item = some oi →
       oi.orderUserId = r.userId → oi.orderStatus = "delivered" →
       oi.productId = r.productId →
       (Review.save r p others).1.is_verified_purchase = true) ∧
    (r.is_verified_purchase = true →
       (Review.save r p others).1.is_verified_purchase = true) := by
  constructor
  · intro oi hoi h1 h2 h3
    show (Review.saveVerify r).is_verified_purchase = true
    simp only [Review.saveVerify, hoi]
    by_cases hv : r.is_verified_purchase = false
    · rw [if_pos ⟨hv, h1, h2, h3⟩]
    · rw [if_neg (fun hc => hv hc.1)]
      cases hb : r.is_verified_purchase
      · exact absurd hb hv
      · rfl
  · intro hv
    show (Review.saveVerify r).is_verified_purchase = true
    cases hoi : r.order_item with
    | none => simpa [Review.saveVerify, hoi] using hv
    | some oi =>
      simp only [Review.saveVerify, hoi]
      split_ifs with hcond
      · rfl
      · exact hv

/-- A review backed by a delivered order item of the same user and
product. -/
def verRev : Review :=
  { productId := 0, userId := 1, rating := 5, is_verified_purchase := false,
    order_item := some { orderUserId := 1, orderStatus := "delivered", productId := 0 },
    helpful_votes := 0, reported_count := 0, is_visible := true,
    moderation_notes := "" }

/-- Witness for C7 at a concrete input: the delivered-order-backed
review comes out of `save` verified. -/
theorem C7_witness :
    (Review.save verRev sampleProduct []).1.is_verified_purchase = true :=
  (C7_verified_purchase verRev sampleProduct []).1
    { orderUserId := 1, orderStatus := "delivered", productId := 0 } rfl rfl rfl rfl

/-- Claim C9: `Review.report()` increments `reported_count` by one, and
when the count reaches 5 the review is hidden and the auto-moderation
note is appended to `moderation_notes`. -/
theorem C9_report (r : Review) (p : Product) (others : List Review) :
    ((Review.report r p others).1.reported_count = r.reported_count + 1) ∧
    (5 ≤ r.reported_count + 1 →
       (Review.report r p others).1.is_visible = false ∧
       (Review.report r p others).1.moderation_notes =
         r.moderation_notes ++ "\nAuto-hidden due to multiple reports.") := by
  have hframe := saveVerify_frame (Review.reportFields r)
  constructor
  · show (Review.saveVerify (Review.reportFields r)).reported_count = r.reported_count + 1
    rw [hframe.2.2.1]
    unfold Review.reportFields
    split_ifs <;> rfl
  · intro h5
    constructor
    · show (Review.saveVerify (Review.reportFields r)).is_visible = false
      rw [hframe.2.2.2.1]
      unfold Review.reportFields
      rw [if_pos h5]
    · show (Review.saveVerify (Review.reportFields r)).moderation_notes = _
      rw [hframe.2.2.2.2]
      unfold Review.reportFields
      rw [if_pos h5]

/-- A visible review that has already been reported four times. -/
def fourReports : Review :=
  { productId := 0, userId := 1, rating := 1, is_verified_purchase := false,
    order_item := none, helpful_votes := 0, reported_count := 4,
    is_visible := true, moderation_notes := "" }

/-- Witness for C9 at a concrete input: the fifth report hides the
review and appends the moderation note. -/
theorem C9_witness :
    (Review.report fourReports sampleProduct []).1.is_visible = false ∧
    (Review.report fourReports sampleProduct []).1.moderation_notes =
      fourReports.moderation_notes ++ "\nAuto-hidden due to multiple reports." :=
  (C9_report fourReports sampleProduct []).2 (by decide)

/-- Claim C10: when the product has no visible review at the moment
`update_product_rating` runs, the product row is left entirely
unchanged (in particular `average_rating` and `total_reviews` keep
their previous values instead of being reset). -/
theorem C10_rating_frame (p : Product) (pid : ℕ) (reviews : List Review)
    (h : visibleReviews pid reviews = []) :
    update_product_rating p pid reviews = p := by
  unfold update_product_rating
  rw [if_pos h]

/-- Witness for C10 at a concrete input: recomputing over a lone hidden
review leaves the stale aggregate (average 4, count 1) in place. -/
theorem C10_witness :
    update_product_rating ratedProduct 0 [hiddenRev] = ratedProduct :=
  C10_rating_frame ratedProduct 0 [hiddenRev] (by decide)

end Shop
